import Mathlib

/-
Shallow embedding of `src/seqc/summary/summary.py` (the report data model and
rendering/packaging pipeline of the seqc repository).

Python strings are modelled as Lean `String`; the string operations the source
uses (`split`, `partition`, `rpartition`, `strip`, `readlines`, containment)
are implemented below by structural recursion over the character list so that
every definition evaluates inside the kernel.  File reads (`open(...).read()`,
`readlines`) are modelled by passing the file's contents as the argument.
Python exceptions are modelled by `Except PyError`.
-/

/-- ASCII whitespace stripped by Python `str.strip()`. -/
def isPySpace (c : Char) : Bool :=
  c == ' ' || c == '\t' || c == '\n' || c == '\r' || c == '\x0b' || c == '\x0c'

/-- Strip leading and trailing whitespace from a character list. -/
def pyStripList (l : List Char) : List Char :=
  ((l.dropWhile isPySpace).reverse.dropWhile isPySpace).reverse

/-- Model of Python `s.strip()`. -/
def pyStrip (s : String) : String := ⟨pyStripList s.data⟩

/-- Split a character list at every occurrence of the character `c`
(model of Python `s.split(sep)` for a one-character separator:
`"".split(sep) == [""]`, empty pieces are kept). -/
def splitCh (c : Char) : List Char → List (List Char)
  | [] => [[]]
  | x :: xs =>
    if x == c then [] :: splitCh c xs
    else
      match splitCh c xs with
      | [] => [[x]]
      | y :: ys => (x :: y) :: ys

/-- Model of Python `s.split(sep)` for a one-character separator. -/
def pySplit (c : Char) (s : String) : List String :=
  (splitCh c s.data).map (fun l => ⟨l⟩)

/-- Model of Python `sub in s` for a one-character `sub`. -/
def containsCh (c : Char) (s : String) : Bool :=
  s.data.any (fun x => x == c)

/-- Does the list start with the given pattern? -/
def startsWithList : List Char → List Char → Bool
  | _, [] => true
  | [], _ :: _ => false
  | c :: cs, p :: ps => c == p && startsWithList cs ps

/-- Find the first occurrence of `sep` in a character list; on success return
the characters before and the characters after the occurrence. -/
def partAux (sep : List Char) : List Char → Option (List Char × List Char)
  | [] => if startsWithList [] sep then some ([], []) else none
  | c :: cs =>
    if startsWithList (c :: cs) sep then some ([], (c :: cs).drop sep.length)
    else
      match partAux sep cs with
      | some (b, a) => some (c :: b, a)
      | none => none

/-- Model of Python `s.partition(sep)`: split at the first occurrence of
`sep`; if `sep` does not occur, return `(s, "", "")`. -/
def pyPartition (s sep : String) : String × String × String :=
  match partAux sep.data s.data with
  | some (b, a) => (⟨b⟩, sep, ⟨a⟩)
  | none => (s, "", "")

/-- Split a character list at the LAST occurrence of the character `c`:
`some (before, after)` when `c` occurs, `none` otherwise. -/
def rpartCh (c : Char) : List Char → Option (List Char × List Char)
  | [] => none
  | x :: xs =>
    match rpartCh c xs with
    | some (b, a) => some (x :: b, a)
    | none => if x == c then some ([], xs) else none

/-- Model of Python `s.rpartition("/")` (the only `rpartition` call in the
source uses the one-character separator "/"). -/
def pyRPartitionSlash (s : String) : String × String × String :=
  match rpartCh '/' s.data with
  | some (b, a) => (⟨b⟩, "/", ⟨a⟩)
  | none => ("", "", s)

/-- The directory part of a path, as the source computes it:
`s.rpartition("/")[0]`. -/
def pyDirname (s : String) : String := (pyRPartitionSlash s).1

/-- Helper for `pyReadlines`: `acc` holds the characters of the current
(unfinished) line in reverse. -/
def linesAux : List Char → List Char → List (List Char)
  | [], acc => if acc.isEmpty then [] else [acc.reverse]
  | c :: cs, acc =>
    if c == '\n' then (acc.reverse ++ ['\n']) :: linesAux cs []
    else linesAux cs (c :: acc)

/-- Model of Python `f.readlines()` applied to a file whose contents are `s`:
the list of lines, each KEEPING its trailing newline character. -/
def pyReadlines (s : String) : List String :=
  (linesAux s.data []).map (fun l => ⟨l⟩)

/-- A Python value appearing in a table: a string or an integer count. -/
inductive PyVal where
  | s (v : String)
  | n (v : Nat)
deriving DecidableEq, Repr

/-- `DataContent = namedtuple('DataContent', ['keys', 'values'])`. -/
structure DataContent where
  keys : List String
  values : List PyVal
deriving DecidableEq, Repr

/-- The three content namedtuples (`TextContent`, `ImageContent`,
`DataContent`) seen as a closed union, as a content slot of a Section can
hold any of them. -/
inductive ContentItem where
  | text (t : String)
  | image (image caption legend : String)
  | data (d : DataContent)
deriving DecidableEq, Repr

/-- `class Section`: name, ordered content mapping (insertion order kept, so
modelled as an association list), output filename. -/
structure Section where
  name : String
  content : List (String × ContentItem)
  filename : String
deriving DecidableEq, Repr

/-- The Python exceptions the modelled code can raise. -/
inductive PyError where
  | valueError
  | attributeError
  | notImplementedError
deriving DecidableEq, Repr

/-- Minimum row length of a list of rows (0 for no rows). -/
def minRowLen : List (List String) → Nat
  | [] => 0
  | [r] => r.length
  | r :: rs => min r.length (minRowLen rs)

/-- Model of the Python idiom `keys, values = zip(*rows)`: `zip(*rows)`
yields `min (length of row)` tuples, and unpacking into two names succeeds
exactly when that minimum is 2 (an empty `rows` gives `zip()`, which yields
nothing); otherwise a `ValueError` is raised.  On success the first tuple is
the first element of every row and the second tuple the second element. -/
def starUnpack2 (rows : List (List String)) : Except PyError (List String × List String) :=
  match rows with
  | [] => .error .valueError
  | _ =>
    if minRowLen rows = 2 then
      .ok (rows.map (fun r => r.getD 0 ""), rows.map (fun r => r.getD 1 ""))
    else .error .valueError

/-- The rows `[l.split('|') for l in block.split('\n') if '|' in l]` of
`split_lines` inside `Section.from_alignment_summary`. -/
def pipeRows (block : String) : List (List String) :=
  ((pySplit '\n' block).filter (containsCh '|')).map (pySplit '|')

/-- `split_lines` from `Section.from_alignment_summary`:
`keys, values = zip(*(l.split('|') for l in block.split('\n') if '|' in l))`,
then keys and values are independently stripped and filtered for
non-emptiness. -/
def split_lines (block : String) : Except PyError DataContent :=
  match starUnpack2 (pipeRows block) with
  | .error e => .error e
  | .ok kv =>
    .ok ⟨(kv.1.map pyStrip).filter (fun k => k != ""),
         ((kv.2.map pyStrip).filter (fun v => v != "")).map PyVal.s⟩

/-- `Section.from_alignment_summary` (the argument `data` is the contents of
the alignment summary file): partition the text at the three marker strings
and build the four category tables in order. -/
def Section.from_alignment_summary (data filename : String) : Except PyError Section :=
  let p1 := pyPartition data "UNIQUE READS:"
  let p2 := pyPartition p1.2.2 "MULTI-MAPPING READS:"
  let p3 := pyPartition p2.2.2 "UNMAPPED READS:"
  match split_lines p1.1 with
  | .error e => .error e
  | .ok c1 =>
    match split_lines p2.1 with
    | .error e => .error e
    | .ok c2 =>
      match split_lines p3.1 with
      | .error e => .error e
      | .ok c3 =>
        match split_lines p3.2.2 with
        | .error e => .error e
        | .ok c4 =>
          .ok ⟨"STAR Alignment Summary",
               [("Run Time", .data c1),
                ("Unique Reads and Splicing", .data c2),
                ("Multimapping Reads", .data c3),
                ("Unmapped Reads", .data c4)],
               filename⟩

/-- The `filter_codes` dictionary of a ReadArray (an external collaborator of
this module); each field is the bitmask value of one status flag. -/
structure FilterCodes where
  no_gene : Nat
  gene_not_unique : Nat
  primer_missing : Nat
  low_polyt : Nat
  cell_error : Nat
  rmt_error : Nat
deriving DecidableEq, Repr

/-- A ReadArray as this module consumes it: only `len(ra.data)`,
`ra.data['status']` and `ra.filter_codes` are used, so a record is modelled
by its status word. -/
structure ReadArray where
  data : List Nat
  filter_codes : FilterCodes
deriving DecidableEq, Repr

/-- Model of `np.sum(statuses & code > 0)`: in Python `&` binds tighter than
`>`, so this counts the records whose status has a bit of `code` set. -/
def countBitSet (statuses : List Nat) (code : Nat) : Nat :=
  (statuses.filter (fun s => 0 < s &&& code)).length

/-- Model of `np.sum(statuses & code)` (NOTE: no `> 0` comparison): the sum
of the bitwise conjunctions themselves. -/
def sumBitAnd (statuses : List Nat) (code : Nat) : Nat :=
  (statuses.map (fun s => s &&& code)).sum

/-- The description literal of `Section.from_status_filters` (the adjacent
Python string literals concatenated). -/
def statusFiltersDescription : String :=
  "Initial filters are run over the sam file while our ReadArray database is " ++
  "being constructed. These filters indicate heuristic reasons why reads " ++
  "should be omitted from downstream operations:\n" ++
  "no gene: Regardless of the read\x27s genomic alignment status, there was no " ++
  "transcriptomic alignment for this read.\n" ++
  "gene not unique: this indicates that more than one alignment was recovered " ++
  "for this read. We attempt to resolve these multi-alignments downstream. " ++
  "primer missing: This is an in-drop specific filter, it indices that the " ++
  "spacer sequence could not be identified, and thus neither a cell barcode " ++
  "nor an rmt were recorded for this read.\n" ++
  "low poly t: the primer did not display enough t-sequence in the primer " ++
  "tail, where these nucleotides are expected. This indicates an increased " ++
  "probability that this primer randomly primed, instead of hybridizing with " ++
  "the poly-a tail of an mRNA molecule."

/-- `Section.from_status_filters`. -/
def Section.from_status_filters (ra : ReadArray) (filename : String) : Section :=
  ⟨"Initial Filtering",
   [("Description", .text statusFiltersDescription),
    ("Results", .data
      ⟨["length of read array", "no gene", "gene not unique", "primer missing",
        "low poly t"],
       [.n ra.data.length,
        .n (countBitSet ra.data ra.filter_codes.no_gene),
        .n (countBitSet ra.data ra.filter_codes.gene_not_unique),
        .n (countBitSet ra.data ra.filter_codes.primer_missing),
        .n (countBitSet ra.data ra.filter_codes.low_polyt)]⟩)],
   filename⟩

/-- `Section.from_cell_barcode_correction`: the counter is
`np.sum(ra.data['status'] & ra.filter_codes['cell_error'] > 0)`. -/
def Section.from_cell_barcode_correction (ra : ReadArray) (filename : String) : Section :=
  ⟨"Cell Barcode Correction",
   [("Description", .text "description for cell barcode correction"),
    ("Results", .data ⟨["cell error"],
      [.n (countBitSet ra.data ra.filter_codes.cell_error)]⟩)],
   filename⟩

/-- `Section.from_rmt_correction`: the counter is
`np.sum(ra.data['status'] & ra.filter_codes['rmt_error'])` — with NO `> 0`,
so it is the sum of the masked status words, not a count. -/
def Section.from_rmt_correction (ra : ReadArray) (filename : String) : Section :=
  ⟨"RMT Barcode Correction",
   [("Description", .text "description for rmt correction"),
    ("Results", .data ⟨["rmt error"],
      [.n (sumBitAnd ra.data ra.filter_codes.rmt_error)]⟩)],
   filename⟩

/-- Model of `keys, values = zip(*results.items())` for a dict whose items
(in insertion order) are the given pairs: every item is a pair, so the
unpacking succeeds exactly when the dict is non-empty. -/
def unzipItems (results : List (String × Nat)) : Except PyError (List String × List Nat) :=
  match results with
  | [] => .error .valueError
  | _ => .ok (results.map Prod.fst, results.map Prod.snd)

/-- `Section.from_resolve_multiple_alignments`. -/
def Section.from_resolve_multiple_alignments (results : List (String × Nat))
    (filename : String) : Except PyError Section :=
  match unzipItems results with
  | .error e => .error e
  | .ok kv =>
    .ok ⟨"Multialignment Resolution",
         [("Description", .text "description for multialignment correction"),
          ("Results", .data ⟨kv.1, kv.2.map PyVal.n⟩)],
         filename⟩

/-- `Section.from_cell_filtering`. -/
def Section.from_cell_filtering (figure_path filename : String) : Section :=
  ⟨"Cell Filtering",
   [("Description", .text "description for cell filtering"),
    ("Results", .image figure_path "cell filtering figure" "image legend")],
   filename⟩

/-- `Section.from_final_matrix`; the call to the external plotting
collaborator (`plot.Diagnostics.cell_size_histogram`) is a side effect on
`figure_path` and does not influence the returned Section. -/
def Section.from_final_matrix (figure_path filename : String) : Section :=
  ⟨"Cell Summary",
   [("Library Size Distribution",
     .image figure_path "cell size figure" "histogram legend")],
   filename⟩

/-- `Section.from_run_time` (the argument `log` is the contents of the log
file): `'<br>'.join(f.readlines())`. -/
def Section.from_run_time (log filename : String) : Section :=
  ⟨"SEQC Log",
   [("Log Content", .text (String.intercalate "<br>" (pyReadlines log)))],
   filename⟩

/-- `Section.from_basic_clustering_and_projection`: `raise NotImplementedError`. -/
def Section.from_basic_clustering_and_projection : Except PyError Section :=
  .error .notImplementedError

/-- `Section.from_overall_yield`: `raise NotImplementedError`. -/
def Section.from_overall_yield : Except PyError Section :=
  .error .notImplementedError

/-- The output of the jinja template call in `Section.render`, modelled
abstractly as the record of the arguments the source passes to it
(`sections=link_sections, section=self, index_section_link=index_section.filename`);
the template file itself is outside this module. -/
structure RenderedPage where
  link_sections : List Section
  sec : Section
  index_section_link : String
deriving DecidableEq, Repr

/-- One file write performed by `Section.render`: the path
`prefix + self.filename` and the rendered content. -/
structure FileWrite where
  path : String
  content : RenderedPage
deriving DecidableEq, Repr

/-- `Section.render`: `link_sections` defaults to `[self]` when `None`;
evaluating `index_section.filename` with `index_section = None` raises an
`AttributeError` before the output file is opened, so an error result carries
no `FileWrite`. -/
def Section.render (s : Section) (pfx : String) (link_sections : Option (List Section))
    (index_section : Option Section) : Except PyError FileWrite :=
  let ls := match link_sections with
    | none => [s]
    | some l => l
  match index_section with
  | none => .error .attributeError
  | some idx => .ok ⟨pfx ++ s.filename, ⟨ls, s, idx.filename⟩⟩

/-- `class Summary` (the fields this development needs). -/
structure Summary where
  archive_name : String
  sections : List Section
  index_section : Option Section
deriving DecidableEq, Repr

/-- The `for section in self.sections:` loop of `Summary.render`, collecting
the file writes in order. -/
def renderSections (pfx : String) (links : List Section) (idx : Section) :
    List Section → Except PyError (List FileWrite)
  | [] => .ok []
  | s :: rest =>
    match Section.render s pfx (some links) (some idx) with
    | .error e => .error e
    | .ok w =>
      match renderSections pfx links idx rest with
      | .error e => .error e
      | .ok ws => .ok (w :: ws)

/-- `Summary.render`: render the index section first with
`(html_location, self.sections, self.index_section)`, then every section of
`self.sections` in order with the same arguments. -/
def Summary.render (su : Summary) : Except PyError (List FileWrite) :=
  let html_location := su.archive_name ++ "/html/"
  match su.index_section with
  | none => .error .attributeError
  | some idx =>
    match Section.render idx html_location (some su.sections) (some idx) with
    | .error e => .error e
    | .ok w0 =>
      match renderSections html_location su.sections idx su.sections with
      | .error e => .error e
      | .ok ws => .ok (w0 :: ws)

/-- The arguments of the `shutil.make_archive` call in
`Summary.compress_archive`. -/
structure MakeArchiveCall where
  base_name : String
  fmt : String
  root_dir : String
  base_dir : String
deriving DecidableEq, Repr

/-- The path of the file `shutil.make_archive` creates (per its documented
contract, an external collaborator): `base_name` plus the `"gztar"` format's
extension `.tar.gz`. -/
def MakeArchiveCall.output_path (c : MakeArchiveCall) : String :=
  c.base_name ++ ".tar.gz"

/-- `Summary.compress_archive`: `root_dir, _, base_dir =
self.archive_name.rpartition('/')`, then `shutil.make_archive(archive_name,
'gztar', root_dir, base_dir)`, returning `archive_name + '.tar.gz'`.  The
result pairs the recorded archive call with the returned path. -/
def Summary.compress_archive (su : Summary) : MakeArchiveCall × String :=
  let p := pyRPartitionSlash su.archive_name
  (⟨su.archive_name, "gztar", p.1, p.2.2⟩, su.archive_name ++ ".tar.gz")

/-- All Table (`DataContent`) items of a Section, in content order. -/
def tablesOf (s : Section) : List DataContent :=
  s.content.filterMap (fun p =>
    match p.2 with
    | .data d => some d
    | _ => none)

/-- Appending strings concatenates their character lists. -/
theorem string_data_append (s t : String) : (s ++ t).data = s.data ++ t.data := by
  cases s; cases t; rfl

/-- The lines produced by `linesAux` concatenate back to the remaining input
preceded by the pending accumulator: no character is lost or added. -/
theorem linesAux_flatten (cs : List Char) : ∀ acc, (linesAux cs acc).flatten = acc.reverse ++ cs := by
  induction cs with
  | nil =>
    intro acc
    simp only [linesAux]
    split
    · simp_all [List.isEmpty_iff]
    · simp
  | cons c cs ih =>
    intro acc
    simp only [linesAux]
    split
    · next h =>
      simp only [List.flatten_cons, ih []]
      simp [beq_iff_eq.mp h]
    · simp [ih (c :: acc)]

/-- `pyReadlines` keeps every character of the file: the lines flatten back to
the original contents (in particular the newline characters are retained). -/
theorem pyReadlines_flatten (s : String) : ((pyReadlines s).map String.data).flatten = s.data := by
  simp only [pyReadlines, List.map_map]
  have : ((linesAux s.data []).map (fun l => String.data ⟨l⟩)).flatten = (linesAux s.data []).flatten := by
    simp
  rw [Function.comp_def, this, linesAux_flatten]
  simp

/-- `rpartCh` finds nothing in a list that does not contain the character. -/
theorem rpartCh_eq_none (c : Char) (t : List Char) (h : c ∉ t) : rpartCh c t = none := by
  induction t with
  | nil => rfl
  | cons x xs ih =>
    simp only [rpartCh]
    rw [ih (fun hx => h (List.mem_cons_of_mem x hx))]
    have hxc : (x == c) = false := by
      simp only [beq_eq_false_iff_ne]
      intro he
      exact h (he ▸ List.mem_cons_self x xs)
    simp [hxc]

/-- Appending a `c`-free suffix moves the last occurrence of `c` not at all:
the split point is unchanged and the suffix lands on the right piece. -/
theorem rpartCh_append (c : Char) (l t : List Char) (h : c ∉ t) :
    rpartCh c (l ++ t) =
      match rpartCh c l with
      | some (b, a) => some (b, a ++ t)
      | none => none := by
  induction l with
  | nil => simp [rpartCh_eq_none c t h, rpartCh]
  | cons x xs ih =>
    simp only [List.cons_append, rpartCh, List.append_eq]
    rw [ih]
    cases hx : rpartCh c xs with
    | some p =>
      cases p with
      | mk b a => simp
    | none =>
      by_cases hxc : (x == c) = true
      · simp [hxc]
      · simp [hxc]

/-- Appending a slash-free suffix to a path does not change its directory
part as computed by `rpartition("/")`. -/
theorem pyDirname_append (s t : String) (h : '/' ∉ t.data) :
    pyDirname (s ++ t) = pyDirname s := by
  unfold pyDirname pyRPartitionSlash
  rw [string_data_append, rpartCh_append '/' s.data t.data h]
  cases hr : rpartCh '/' s.data with
  | none => simp
  | some p => cases p with | mk b a => simp

/-- Every step of the section loop of `Summary.render` succeeds and emits the
write for `prefix + filename` with the given sibling list and index link. -/
theorem renderSections_ok (pfx : String) (links : List Section) (idx : Section)
    (secs : List Section) :
    renderSections pfx links idx secs =
      .ok (secs.map (fun s => ⟨pfx ++ s.filename, ⟨links, s, idx.filename⟩⟩)) := by
  induction secs with
  | nil => rfl
  | cons s rest ih => simp [renderSections, Section.render, ih]

/-- C5: `Summary.render` renders the index section first, passing it the full
sections list and the index section itself as index, and then renders every
section of `sections` in stored order with that same sibling list and the
same index link, each into the archive's `html/` subdirectory. -/
theorem C5_render_order (an : String) (secs : List Section) (idx : Section) :
    Summary.render ⟨an, secs, some idx⟩ =
      .ok (⟨(an ++ "/html/") ++ idx.filename, ⟨secs, idx, idx.filename⟩⟩ ::
           secs.map (fun s => ⟨(an ++ "/html/") ++ s.filename, ⟨secs, s, idx.filename⟩⟩)) := by
  simp [Summary.render, Section.render, renderSections_ok]

/-- C9: `Section.render` with `index_section = None` (its default) raises an
`AttributeError` before any file is written (the error result carries no
`FileWrite`), while omitting `link_sections` has the working default `[self]`
once an index section is supplied. -/
theorem C9_render_requires_index :
    (∀ (s : Section) (pfx : String) (ls : Option (List Section)),
      Section.render s pfx ls none = .error .attributeError) ∧
    (∀ (s : Section) (pfx : String) (idx : Section),
      Section.render s pfx none (some idx) =
        .ok ⟨pfx ++ s.filename, ⟨[s], s, idx.filename⟩⟩) :=
  ⟨fun _ _ _ => rfl, fun _ _ _ => rfl⟩

/-- C4: both unimplemented construction helpers fail with the
`NotImplementedError` signal and thus never return a Section. -/
theorem C4_not_implemented :
    Section.from_basic_clustering_and_projection = .error .notImplementedError ∧
    Section.from_overall_yield = .error .notImplementedError :=
  ⟨rfl, rfl⟩

/-- C10: `Section.from_resolve_multiple_alignments` raises a `ValueError` on
an empty results mapping, and on a non-empty mapping returns a Section whose
Results table lists the mapping's keys and values in iteration order. -/
theorem C10_resolve_multiple_alignments :
    (∀ f : String, Section.from_resolve_multiple_alignments [] f = .error .valueError) ∧
    (∀ (p : String × Nat) (rest : List (String × Nat)) (f : String),
      Section.from_resolve_multiple_alignments (p :: rest) f =
        .ok ⟨"Multialignment Resolution",
             [("Description", .text "description for multialignment correction"),
              ("Results", .data ⟨(p :: rest).map Prod.fst,
                                 ((p :: rest).map Prod.snd).map PyVal.n⟩)],
             f⟩) :=
  ⟨fun _ => rfl, fun _ _ _ => rfl⟩

/-- C6: `Summary.compress_archive` requests one gztar archive of the archive
directory (split as parent directory and base name), whose output file is
`archive_name + ".tar.gz"`, located in the same parent directory as the
archive directory, and it returns exactly that output path. -/
theorem C6_compress_archive (su : Summary) :
    (su.compress_archive.1 =
      ⟨su.archive_name, "gztar", pyDirname su.archive_name,
       (pyRPartitionSlash su.archive_name).2.2⟩) ∧
    su.compress_archive.1.output_path = su.archive_name ++ ".tar.gz" ∧
    su.compress_archive.2 = su.compress_archive.1.output_path ∧
    pyDirname su.compress_archive.1.output_path = pyDirname su.archive_name := by
  refine ⟨rfl, rfl, rfl, ?_⟩
  exact pyDirname_append su.archive_name ".tar.gz" (by decide)

/-- C7: `Section.from_status_filters` pairs the fixed five keys, in order,
with the total record count followed by the four counts of records whose
status bitmask has the corresponding filter bit set, next to the fixed
description text. -/
theorem C7_status_filters_schema (ra : ReadArray) (f : String) :
    Section.from_status_filters ra f =
      ⟨"Initial Filtering",
       [("Description", .text statusFiltersDescription),
        ("Results", .data
          ⟨["length of read array", "no gene", "gene not unique", "primer missing",
            "low poly t"],
           [.n ra.data.length,
            .n (ra.data.countP (fun s => 0 < s &&& ra.filter_codes.no_gene)),
            .n (ra.data.countP (fun s => 0 < s &&& ra.filter_codes.gene_not_unique)),
            .n (ra.data.countP (fun s => 0 < s &&& ra.filter_codes.primer_missing)),
            .n (ra.data.countP (fun s => 0 < s &&& ra.filter_codes.low_polyt))]⟩)],
       f⟩ := by
  simp [Section.from_status_filters, countBitSet, List.countP_eq_length_filter]

/-- C8 counterexample: on the log contents `"a\nb"`, `from_run_time` yields
the text `"a\n<br>b"`, in which the newline is retained next to the inserted
`<br>` markup; it does not equal `"a<br>b"`, the text with the newline
replaced by the markup as the claim states. -/
theorem C8_counterexample :
    Section.from_run_time "a\nb" "log.html" =
      ⟨"SEQC Log", [("Log Content", .text "a\n<br>b")], "log.html"⟩ ∧
    "a\n<br>b" ≠ "a<br>b" := by
  refine ⟨by decide, by decide⟩

/-- C8 amended: `from_run_time` returns a Section holding exactly one Text
item, whose text is the log's lines joined by the `<br>` markup; the lines
keep their trailing newline characters (they concatenate back to the whole
log contents), so `<br>` is inserted alongside the newlines rather than
replacing them. -/
theorem C8_run_time_text (log filename : String) :
    Section.from_run_time log filename =
      ⟨"SEQC Log",
       [("Log Content", .text (String.intercalate "<br>" (pyReadlines log)))],
       filename⟩ ∧
    ((pyReadlines log).map String.data).flatten = log.data :=
  ⟨rfl, pyReadlines_flatten log⟩

/-- C3: with filter code `rmt_error = 2` and two records of status `2`, the
rmt-error cell of `from_rmt_correction` holds `np.sum(status & code) = 4`,
while the count of records whose status has the bit set (the semantics of
the claim, and of the cell-error counter of
`from_cell_barcode_correction`, which yields 2 on the mirror input) is 2. -/
theorem C3_rmt_sum_not_count :
    tablesOf (Section.from_rmt_correction ⟨[2, 2], ⟨1, 1, 1, 1, 2, 2⟩⟩ "r.html") =
      [⟨["rmt error"], [.n 4]⟩] ∧
    countBitSet [2, 2] 2 = 2 ∧
    tablesOf (Section.from_cell_barcode_correction ⟨[2, 2], ⟨1, 1, 1, 1, 2, 2⟩⟩ "c.html") =
      [⟨["cell error"], [.n 2]⟩] ∧
    (4 : Nat) ≠ 2 := by
  refine ⟨by decide, by decide, by decide, by decide⟩

/-- C2 counterexample: on the spec's own example input, whose text before the
first marker contains no pipe-delimited line, `from_alignment_summary` raises
a `ValueError` (from unpacking an empty `zip`) instead of producing an empty
Run Time table. -/
theorem C2_counterexample :
    Section.from_alignment_summary
        "5\nUNIQUE READS:\na | 1\nb | 2\nMULTI-MAPPING READS:\nc | 3\nUNMAPPED READS:\nd | 4\n"
        "s.html" = .error .valueError := rfl

/-- C2 amended: whenever `from_alignment_summary` returns a Section, that
Section carries the four category tables in order (Run Time, Unique Reads
and Splicing, Multimapping Reads, Unmapped Reads); a block with no
pipe-delimited lines instead makes the whole call raise a `ValueError`. -/
theorem C2_four_tables (data filename : String) (sec : Section)
    (h : Section.from_alignment_summary data filename = .ok sec) :
    sec.name = "STAR Alignment Summary" ∧ sec.filename = filename ∧
    ∃ d1 d2 d3 d4 : DataContent,
      sec.content =
        [("Run Time", .data d1), ("Unique Reads and Splicing", .data d2),
         ("Multimapping Reads", .data d3), ("Unmapped Reads", .data d4)] := by
  simp only [Section.from_alignment_summary] at h
  split at h
  · exact absurd h (by simp)
  · split at h
    · exact absurd h (by simp)
    · split at h
      · exact absurd h (by simp)
      · split at h
        · exact absurd h (by simp)
        · injection h with h'
          subst h'
          exact ⟨rfl, rfl, _, _, _, _, rfl⟩

/-- C2 witness: a well-formed summary, every block holding one pipe line,
parses to the four tables in order. -/
theorem C2_witness :
    (Section.from_alignment_summary
        "t | 0\nUNIQUE READS:\na | 1\nMULTI-MAPPING READS:\nc | 3\nUNMAPPED READS:\nd | 4"
        "s.html" =
      .ok ⟨"STAR Alignment Summary",
           [("Run Time", .data ⟨["t"], [.s "0"]⟩),
            ("Unique Reads and Splicing", .data ⟨["a"], [.s "1"]⟩),
            ("Multimapping Reads", .data ⟨["c"], [.s "3"]⟩),
            ("Unmapped Reads", .data ⟨["d"], [.s "4"]⟩)],
           "s.html"⟩) ∧
    ((Section.mk "STAR Alignment Summary"
        [("Run Time", .data ⟨["t"], [.s "0"]⟩),
         ("Unique Reads and Splicing", .data ⟨["a"], [.s "1"]⟩),
         ("Multimapping Reads", .data ⟨["c"], [.s "3"]⟩),
         ("Unmapped Reads", .data ⟨["d"], [.s "4"]⟩)] "s.html").name =
      "STAR Alignment Summary" ∧
     (Section.mk "STAR Alignment Summary"
        [("Run Time", .data ⟨["t"], [.s "0"]⟩),
         ("Unique Reads and Splicing", .data ⟨["a"], [.s "1"]⟩),
         ("Multimapping Reads", .data ⟨["c"], [.s "3"]⟩),
         ("Unmapped Reads", .data ⟨["d"], [.s "4"]⟩)] "s.html").filename = "s.html" ∧
     ∃ d1 d2 d3 d4 : DataContent,
       (Section.mk "STAR Alignment Summary"
          [("Run Time", .data ⟨["t"], [.s "0"]⟩),
           ("Unique Reads and Splicing", .data ⟨["a"], [.s "1"]⟩),
           ("Multimapping Reads", .data ⟨["c"], [.s "3"]⟩),
           ("Unmapped Reads", .data ⟨["d"], [.s "4"]⟩)] "s.html").content =
         [("Run Time", .data d1), ("Unique Reads and Splicing", .data d2),
          ("Multimapping Reads", .data d3), ("Unmapped Reads", .data d4)]) :=
  ⟨rfl,
   C2_four_tables
     "t | 0\nUNIQUE READS:\na | 1\nMULTI-MAPPING READS:\nc | 3\nUNMAPPED READS:\nd | 4"
     "s.html" _ rfl⟩

/-- C1 counterexample: an alignment summary whose Unique-Reads block holds
the pipe line `" | 2"` (blank key part) produces a Table with zero keys but
one value — the keys/values pairing invariant fails on a helper-produced
Table. -/
theorem C1_counterexample :
    Section.from_alignment_summary
        "t | 0\nUNIQUE READS:\n | 2\nMULTI-MAPPING READS:\na | 3\nUNMAPPED READS:\nb | 4"
        "s.html" =
      .ok ⟨"STAR Alignment Summary",
           [("Run Time", .data ⟨["t"], [.s "0"]⟩),
            ("Unique Reads and Splicing", .data ⟨[], [.s "2"]⟩),
            ("Multimapping Reads", .data ⟨["a"], [.s "3"]⟩),
            ("Unmapped Reads", .data ⟨["b"], [.s "4"]⟩)],
           "s.html"⟩ ∧
    ([] : List String).length ≠ [PyVal.s "2"].length :=
  ⟨rfl, by decide⟩

/-- C1 amended: the keys/values pairing invariant holds for the tables of
`from_status_filters`, `from_cell_barcode_correction`, `from_rmt_correction`
and `from_resolve_multiple_alignments`; for `split_lines` it holds provided
every pipe line's key part and value part are non-blank after stripping —
blank parts are dropped from keys and values independently, which is what
breaks the pairing in general. -/
theorem C1_keys_values_pairing :
    (∀ (block : String) (d : DataContent), split_lines block = .ok d →
      (∀ r ∈ pipeRows block, pyStrip (r.getD 0 "") ≠ "" ∧ pyStrip (r.getD 1 "") ≠ "") →
      d.keys.length = d.values.length) ∧
    (∀ (ra : ReadArray) (f : String),
      ∀ d ∈ tablesOf (Section.from_status_filters ra f), d.keys.length = d.values.length) ∧
    (∀ (ra : ReadArray) (f : String),
      ∀ d ∈ tablesOf (Section.from_cell_barcode_correction ra f),
        d.keys.length = d.values.length) ∧
    (∀ (ra : ReadArray) (f : String),
      ∀ d ∈ tablesOf (Section.from_rmt_correction ra f), d.keys.length = d.values.length) ∧
    (∀ (results : List (String × Nat)) (f : String) (sec : Section),
      Section.from_resolve_multiple_alignments results f = .ok sec →
      ∀ d ∈ tablesOf sec, d.keys.length = d.values.length) := by
  refine ⟨?_, ?_, ?_, ?_, ?_⟩
  · intro block d h hr
    unfold split_lines at h
    cases hu : starUnpack2 (pipeRows block) with
    | error e => rw [hu] at h; simp at h
    | ok kv =>
      rw [hu] at h
      simp only [Except.ok.injEq] at h
      subst h
      unfold starUnpack2 at hu
      cases hp : pipeRows block with
      | nil => rw [hp] at hu; simp at hu
      | cons r rs =>
        rw [hp] at hu
        rw [hp] at hr
        simp only [] at hu
        split at hu
        · simp only [Except.ok.injEq] at hu
          subst hu
          have h1 : ∀ a ∈ (r :: rs).map (fun q => pyStrip (q.getD 0 "")), (a != "") = true := by
            intro a ha
            rw [List.mem_map] at ha
            obtain ⟨q, hq, rfl⟩ := ha
            exact bne_iff_ne.mpr (hr q hq).1
          have h2 : ∀ a ∈ (r :: rs).map (fun q => pyStrip (q.getD 1 "")), (a != "") = true := by
            intro a ha
            rw [List.mem_map] at ha
            obtain ⟨q, hq, rfl⟩ := ha
            exact bne_iff_ne.mpr (hr q hq).2
          simp only [List.map_map, Function.comp_def]
          rw [List.filter_eq_self.mpr h1, List.filter_eq_self.mpr h2]
          simp
        · simp at hu
  · intro ra f d hd
    simp only [tablesOf, Section.from_status_filters, List.filterMap_cons,
      List.filterMap_nil, List.mem_singleton] at hd
    subst hd
    rfl
  · intro ra f d hd
    simp only [tablesOf, Section.from_cell_barcode_correction, List.filterMap_cons,
      List.filterMap_nil, List.mem_singleton] at hd
    subst hd
    rfl
  · intro ra f d hd
    simp only [tablesOf, Section.from_rmt_correction, List.filterMap_cons,
      List.filterMap_nil, List.mem_singleton] at hd
    subst hd
    rfl
  · intro results f sec h
    cases results with
    | nil => simp [Section.from_resolve_multiple_alignments, unzipItems] at h
    | cons p rest =>
      simp only [Section.from_resolve_multiple_alignments, unzipItems,
        Except.ok.injEq] at h
      subst h
      intro d hd
      simp only [tablesOf, List.filterMap_cons, List.filterMap_nil,
        List.mem_singleton] at hd
      subst hd
      simp

/-- C1 witness: a block whose single pipe line has non-blank key and value
parts yields a Table with equally many keys and values. -/
theorem C1_witness :
    split_lines "a | 1" = .ok ⟨["a"], [PyVal.s "1"]⟩ ∧
    (DataContent.mk ["a"] [PyVal.s "1"]).keys.length =
      (DataContent.mk ["a"] [PyVal.s "1"]).values.length :=
  ⟨rfl, C1_keys_values_pairing.1 "a | 1" ⟨["a"], [PyVal.s "1"]⟩ rfl (by decide)⟩
